import Mathlib

/-!
Verification development for the energy-partner tariff scraper
(src/main.py).  The file embeds the data model, the result-item
extraction script, and the request pipeline of `scrape_tariffs` as
executable Lean definitions, and proves the behavioural properties
stated in the specification against them.
-/

namespace EnergyScraper

/-- Process configuration: the two optional environment variables
PORTAL_USERNAME and PORTAL_PASSWORD read at module load (main.py
lines 16-17). -/
structure Config where
  PORTAL_USERNAME : Option String
  PORTAL_PASSWORD : Option String
  deriving Repr, DecidableEq

/-- Python truthiness of an optional string: `None` and the empty
string are falsy, every other string is truthy. -/
def truthy : Option String → Bool
  | none => false
  | some s => s != ""

/-- Request body of POST /scrape (main.py lines 30-40), with the
pydantic defaults. -/
structure ScrapeRequest where
  plz : String
  verbrauch : Int
  personen : Int := 1
  vertragsart : String := "Neukunde"
  userId : String
  brokerId : Option String := none
  ort : Option String := none
  strasse : Option String := none
  hausnummer : Option String := none
  include_provisions : Bool := true
  deriving Repr, DecidableEq

/-- One extracted tariff (main.py lines 42-51).  All price-like fields
are optional TEXT fields in the source (`Optional[str]`), not numbers. -/
structure TariffDetail where
  anbieter : String
  tarif : String
  preis_monat : Option String := none
  preis_jahr : Option String := none
  grundpreis : Option String := none
  arbeitspreis : Option String := none
  provision : Option String := none
  provision_details : Option (List (String × String)) := none
  tariff_id : Option String := none
  deriving Repr, DecidableEq

/-- Response payload of POST /scrape (main.py lines 53-57). -/
structure ScrapeResponse where
  success : Bool
  tariffs : List TariffDetail
  count : Nat
  error : Option String := none
  deriving Repr, DecidableEq

/-- FastAPI HTTPException as raised on missing credentials
(main.py lines 72-75). -/
structure HTTPException where
  status_code : Nat
  detail : String
  deriving Repr, DecidableEq

deriving instance DecidableEq for Except

/-- One rendered `.egon-ratecalc-result-item` DOM node, as seen by the
extraction script (main.py lines 193-225).  Each field holds the raw
`textContent` of the corresponding child element (`none` when the
element is absent), the two `getAttribute` results, and a `malformed`
flag meaning that touching the item throws, exercising the per-item
try/catch of the script. -/
structure ResultItem where
  providerPrimary : Option String := none
  providerData : Option String := none
  tariffPrimary : Option String := none
  tariffData : Option String := none
  priceMonthPrimary : Option String := none
  priceMonthData : Option String := none
  priceYearPrimary : Option String := none
  priceYearData : Option String := none
  basePricePrimary : Option String := none
  basePriceData : Option String := none
  workPricePrimary : Option String := none
  workPriceData : Option String := none
  attrTariffId : Option String := none
  attrId : Option String := none
  malformed : Bool := false
  deriving Repr, DecidableEq

/-- JavaScript `a || b` on optional strings: an absent value and the
empty string are falsy and fall through to the right operand. -/
def jsOr : Option String → Option String → Option String
  | none, b => b
  | some s, b => if s = "" then b else some s

/-- Model of JavaScript String.prototype.trim: strip leading and
trailing whitespace.  Defined by structural recursion over the
character list so that it evaluates inside the kernel. -/
def jsTrim (s : String) : String :=
  ⟨((s.data.dropWhile Char.isWhitespace).reverse.dropWhile Char.isWhitespace).reverse⟩

/-- Optional-chained `x?.textContent?.trim()`. -/
def textOf : Option String → Option String
  | none => none
  | some s => some (jsTrim s)

/-- The two-selector fallback chain `a?.textContent?.trim() ||
b?.textContent?.trim() || null` used for every field of the
extraction script. -/
def fieldChain (a b : Option String) : Option String :=
  jsOr (textOf a) (jsOr (textOf b) none)

/-- Extraction of a single result item at position `index`
(main.py lines 198-220): on a malformed item the catch clause fires
and nothing is pushed, otherwise a record is built from the fallback
chains, with `tariff_id` defaulting to `tariff_<index>`. -/
def extractItem (item : ResultItem) (index : Nat) : Option TariffDetail :=
  if item.malformed then
    none
  else
    some {
      anbieter := (fieldChain item.providerPrimary item.providerData).getD ""
      tarif := (fieldChain item.tariffPrimary item.tariffData).getD ""
      preis_monat := fieldChain item.priceMonthPrimary item.priceMonthData
      preis_jahr := fieldChain item.priceYearPrimary item.priceYearData
      grundpreis := fieldChain item.basePricePrimary item.basePriceData
      arbeitspreis := fieldChain item.workPricePrimary item.workPriceData
      tariff_id := some ((jsOr item.attrTariffId
        (jsOr item.attrId none)).getD ("tariff_" ++ toString index)) }

/-- The `items.forEach((item, index) => ...)` loop of the extraction
script: every rendered item is visited (there is no upper bound on the
number of items), successful extractions are pushed in order, failed
ones are skipped. -/
def extractLoop : Nat → List ResultItem → List TariffDetail
  | _, [] => []
  | i, item :: rest =>
    match extractItem item i with
    | some t => t :: extractLoop (i + 1) rest
    | none => extractLoop (i + 1) rest

/-- Value of `tariffs_data` after `page.evaluate` (main.py line 193). -/
def tariffs_data (items : List ResultItem) : List TariffDetail :=
  extractLoop 0 items

/-- Observable browser-side actions of the pipeline, in program order.
`closeBrowser` records the transition of the browser session from open
to closed; `stopPlaywright` records the exit of the
`async with async_playwright()` block, which closes any browser that
is still open before it fires. -/
inductive Ev where
  | launchBrowser
  | newContext
  | newPage
  | goto (url : String)
  | fill (selector : String) (value : String)
  | typeText (selector : String) (value : String)
  | click (selector : String)
  | selectByLabel (selector : String) (label : String)
  | selectByIndex (selector : String) (index : Nat)
  | screenshot (path : String)
  | closeBrowser
  | stopPlaywright
  deriving Repr, DecidableEq

/-- Exceptions that can escape the session body.  `pwTimeout` is a
playwright TimeoutError from a wait or select call (its message is the
generic operation name plus the timeout, it carries no form-field
name); `loginFailed` is the explicit raise at main.py line 103;
`noResults` is the wrapping raise at main.py line 188. -/
inductive Exc where
  | loginFailed
  | pwTimeout (op : String) (ms : Nat)
  | noResults (inner : Exc)
  deriving Repr, DecidableEq

/-- The `str(e)` rendering of an exception, as interpolated into the
failure payload at main.py line 275. -/
def excMsg : Exc → String
  | .loginFailed => "Login failed - check credentials"
  | .pwTimeout op ms => op ++ ": Timeout " ++ toString ms ++ "ms exceeded."
  | .noResults e => "No tariff results found. Error: " ++ excMsg e

/-- Behaviour of the portal for one request: whether the login is
rejected, whether each AJAX wait condition is eventually satisfied
(an empty option list means the dependent select never grows past its
placeholder, so the 5s `wait_for_function` times out), whether result
items render within the 15s results wait (`none` means they never do),
and how the per-tariff provision drill-down behaves. -/
structure PortalEnv where
  loginFails : Bool := false
  ratecalcLoads : Bool := true
  cityPlaceholder : String := "Bitte wählen"
  cityOptions : List String := []
  streetPlaceholder : String := "Bitte wählen"
  streetOptions : List String := []
  netzLoads : Bool := true
  resultItems : Option (List ResultItem) := none
  provisionBtn : String → Bool := fun _ => false
  provisionFails : String → Bool := fun _ => false
  provisionValue : String → Option String := fun _ => none

def zipField : String := "#egon-embedded-ratecalc-form-field-zip"

def cityField : String := "#egon-embedded-ratecalc-form-field-city"

def streetField : String := "#egon-embedded-ratecalc-form-field-street"

def streetNumberField : String := "#egon-embedded-ratecalc-form-field-street_number"

def consumField : String := "#egon-embedded-ratecalc-form-field-consum"

/-- `page.select_option` on a dependent select (main.py lines 133-136
and 148-151): with a caller-supplied value the option is matched by
display label against ALL rendered options and, when no option
matches, playwright keeps waiting for one until its 30s default
timeout expires and raises a TimeoutError (nothing is selected);
without a caller-supplied value the option at index 1, the first
non-placeholder option, is selected. -/
def selectStep (selector : String) (options : List String) :
    Option String → Except Exc Ev
  | some label =>
    if label ∈ options then Except.ok (Ev.selectByLabel selector label)
    else Except.error (Exc.pwTimeout "Page.select_option" 30000)
  | none => Except.ok (Ev.selectByIndex selector 1)

/-- CSS selector for the provision button of one tariff.  Modelled
from the spec: main.py line 236 writes this f-string with a stray
quote directly after the closing double quote of the attribute value,
which is a Python SyntaxError (unmatched bracket); the selector below
is the evident intent of that line. -/
def provision_selector (tid : String) : String :=
  "[data-tariff-id=\"" ++ tid ++ "\"] .egon-provision-btn"

/-- One iteration of the provision drill-down loop (main.py lines
233-256, with the line-236 selector repaired as in
`provision_selector`): if anything in the try block throws, the
warning branch sets the provision to `None` and the loop continues;
if the provision button exists it is clicked and the provision text is
read (possibly absent); if the button does not exist the record is
left untouched. -/
def drillOne (env : PortalEnv) (t : TariffDetail) : TariffDetail × List Ev :=
  let tid := t.tariff_id.getD ""
  if env.provisionFails tid then
    ({ t with provision := none }, [])
  else if env.provisionBtn tid then
    ({ t with provision := env.provisionValue tid },
      [Ev.click (provision_selector tid)])
  else
    (t, [])

/-- The whole `for tariff in tariffs_data` drill-down loop: every
tariff is processed independently, in order. -/
def drillAll (env : PortalEnv) : List TariffDetail → List TariffDetail × List Ev
  | [] => ([], [])
  | t :: ts =>
    let r := drillOne env t
    let rs := drillAll env ts
    (r.1 :: rs.1, r.2 ++ rs.2)

/-- Actions performed up to the login check (main.py lines 79-99). -/
def loginTrace (cfg : Config) : List Ev :=
  [Ev.launchBrowser, Ev.newContext, Ev.newPage,
    Ev.goto "https://portal-energypartner.de/vp-buero/login/",
    Ev.fill "input[name=\"user\"]" (cfg.PORTAL_USERNAME.getD ""),
    Ev.fill "input[name=\"pass\"]" (cfg.PORTAL_PASSWORD.getD ""),
    Ev.click "button[type=\"submit\"]"]

/-- Actions performed up to the rate-calculator wait (lines 108-112). -/
def navTrace (cfg : Config) : List Ev :=
  loginTrace cfg ++ [Ev.goto "https://portal-energypartner.de/energie/tarifrechner/"]

/-- Actions performed up to the city wait (lines 118-130). -/
def zipTrace (cfg : Config) (req : ScrapeRequest) : List Ev :=
  navTrace cfg ++ [Ev.click zipField, Ev.fill zipField "",
    Ev.typeText zipField req.plz, Ev.click cityField]

/-- Actions performed up to the street wait (lines 133-145):
`evCity` is the city selection that succeeded. -/
def cityTrace (cfg : Config) (req : ScrapeRequest) (evCity : Ev) : List Ev :=
  zipTrace cfg req ++ [evCity]

/-- Python `request.hausnummer if request.hausnummer else '1'`
(main.py line 154). -/
def hausnr (req : ScrapeRequest) : String :=
  if truthy req.hausnummer then req.hausnummer.getD "" else "1"

/-- Actions performed up to the grid-operator wait (lines 148-165). -/
def streetTrace (cfg : Config) (req : ScrapeRequest) (evCity evStreet : Ev) : List Ev :=
  cityTrace cfg req evCity ++
    [evStreet, Ev.fill streetNumberField (hausnr req), Ev.click "body"]

/-- Actions performed up to the results wait (lines 168-178). -/
def submitTrace (cfg : Config) (req : ScrapeRequest) (evCity evStreet : Ev) : List Ev :=
  streetTrace cfg req evCity evStreet ++
    [Ev.fill consumField (toString req.verbrauch),
      Ev.click "button:has-text(\"jetzt Tarife berechnen\")"]

/-- The body of the `try` / `async with` block of `scrape_tariffs`
(main.py lines 78-267): launch the browser, log in, walk the
dependent-field cascade, submit, wait for results, extract, optionally
drill down for provisions, close the browser and build the success
payload.  The returned trace lists the browser actions performed up to
the point where the body returned or raised. -/
def sessionBody (cfg : Config) (env : PortalEnv) (req : ScrapeRequest) :
    Except Exc ScrapeResponse × List Ev :=
  if env.loginFails then
    (Except.error Exc.loginFailed, loginTrace cfg)
  else if !env.ratecalcLoads then
    (Except.error (Exc.pwTimeout "Page.wait_for_selector" 10000), navTrace cfg)
  else if env.cityOptions.isEmpty then
    (Except.error (Exc.pwTimeout "Page.wait_for_function" 5000), zipTrace cfg req)
  else
    match selectStep cityField (env.cityPlaceholder :: env.cityOptions) req.ort with
    | Except.error e => (Except.error e, zipTrace cfg req)
    | Except.ok evCity =>
      if env.streetOptions.isEmpty then
        (Except.error (Exc.pwTimeout "Page.wait_for_function" 5000), cityTrace cfg req evCity)
      else
        match selectStep streetField (env.streetPlaceholder :: env.streetOptions) req.strasse with
        | Except.error e => (Except.error e, cityTrace cfg req evCity)
        | Except.ok evStreet =>
          if !env.netzLoads then
            (Except.error (Exc.pwTimeout "Page.wait_for_function" 5000),
              streetTrace cfg req evCity evStreet)
          else
            match env.resultItems with
            | none =>
              (Except.error (Exc.noResults (Exc.pwTimeout "Page.wait_for_selector" 15000)),
                submitTrace cfg req evCity evStreet ++ [Ev.screenshot "/tmp/error_screenshot.png"])
            | some items =>
              let data := tariffs_data items
              let dres := if req.include_provisions && data.length > 0
                then drillAll env data else (data, [])
              (Except.ok { success := true, tariffs := dres.1, count := dres.1.length },
                submitTrace cfg req evCity evStreet ++ dres.2 ++ [Ev.closeBrowser])

/-- The endpoint `scrape_tariffs` (main.py lines 67-276): missing or
empty credentials raise HTTPException 500 before anything else runs
(empty trace); otherwise the session body runs inside
`async with async_playwright()` whose exit closes a still-open browser
and stops playwright, and any exception is turned into the generic
failure payload by the single handler at lines 269-276. -/
def scrape_tariffs (cfg : Config) (env : PortalEnv) (req : ScrapeRequest) :
    Except HTTPException ScrapeResponse × List Ev :=
  if !truthy cfg.PORTAL_USERNAME || !truthy cfg.PORTAL_PASSWORD then
    (Except.error
      ⟨500, "Portal credentials not configured. Set PORTAL_USERNAME and PORTAL_PASSWORD env vars."⟩,
      [])
  else
    match sessionBody cfg env req with
    | (Except.ok resp, tr) => (Except.ok resp, tr ++ [Ev.stopPlaywright])
    | (Except.error e, tr) =>
      (Except.ok { success := false, tariffs := [], count := 0, error := some (excMsg e) },
        tr ++ [Ev.closeBrowser, Ev.stopPlaywright])

/-! Concrete fixtures used by the witnesses and counterexamples. -/

/-- A configuration with both credentials present. -/
def goodCfg : Config := ⟨some "makler", some "geheim"⟩

/-- A well-formed rendered result item. -/
def wfItem : ResultItem :=
  { providerPrimary := some "Stadtwerke", tariffPrimary := some "Basistarif" }

/-- A malformed rendered result item: touching it throws inside the
extraction script, so its catch clause fires. -/
def badItem : ResultItem := { malformed := true }

/-- A rendered item carrying locale-formatted price text. -/
def priceItem : ResultItem :=
  { providerPrimary := some "Anbieter X", tariffPrimary := some "Tarif Y",
    priceMonthPrimary := some "29,90€", priceYearPrimary := some "1.234,56 €" }

/-- Result item with an explicit tariff id, used by the drill-down
fixtures. -/
def itemA : ResultItem :=
  { providerPrimary := some "Anbieter A", tariffPrimary := some "Tarif A",
    attrTariffId := some "tid-A" }

/-- Second result item with an explicit tariff id. -/
def itemB : ResultItem :=
  { providerPrimary := some "Anbieter B", tariffPrimary := some "Tarif B",
    attrTariffId := some "tid-B" }

/-- A portal that behaves well end to end. -/
def happyEnv : PortalEnv :=
  { cityOptions := ["Berlin"], streetOptions := ["Hauptstrasse"],
    resultItems := some [wfItem] }

/-- A portal whose city select never grows past its placeholder. -/
def cityStallEnv : PortalEnv := { }

/-- A portal that populates the city options but whose street select
never grows past its placeholder. -/
def cityOnlyEnv : PortalEnv := { cityOptions := ["Berlin"] }

/-- A portal that renders zero result items within the results wait. -/
def noResultsEnv : PortalEnv :=
  { cityOptions := ["Berlin"], streetOptions := ["Hauptstrasse"],
    resultItems := none }

/-- A portal where the provision drill-down of tariff tid-A throws and
the drill-down of every other tariff succeeds. -/
def drillFailEnv : PortalEnv :=
  { cityOptions := ["Berlin"], streetOptions := ["Hauptstrasse"],
    resultItems := some [itemA, itemB],
    provisionBtn := fun _ => true,
    provisionFails := fun tid => tid == "tid-A",
    provisionValue := fun _ => some "25,00 Euro" }

/-- A plain valid request (city, street, house number unspecified). -/
def sampleReq : ScrapeRequest :=
  { plz := "10115", verbrauch := 3500, userId := "user-1" }

/-- A request whose supplied city label matches no rendered option. -/
def badCityReq : ScrapeRequest :=
  { plz := "10115", verbrauch := 3500, userId := "user-1", ort := some "Atlantis" }

/-- A request that supplies a city and a street label, both matching a
rendered option. -/
def labeledReq : ScrapeRequest :=
  { plz := "10115", verbrauch := 3500, userId := "user-1",
    ort := some "Berlin", strasse := some "Hauptstrasse" }

/-! Helper lemmas about the extraction loop. -/

/-- The extraction loop keeps exactly the non-malformed items,
whatever the starting index. -/
theorem extractLoop_length (l : List ResultItem) : ∀ i,
    (extractLoop i l).length = (l.filter (fun it => !it.malformed)).length := by
  induction l with
  | nil => intro i; rfl
  | cons a l ih =>
    intro i
    cases hm : a.malformed <;>
      simp [extractLoop, extractItem, hm, List.filter_cons, ih]

/-- The extraction loop distributes over list append, shifting the
index by the length of the first part. -/
theorem extractLoop_append (l₁ l₂ : List ResultItem) : ∀ i,
    extractLoop i (l₁ ++ l₂) = extractLoop i l₁ ++ extractLoop (i + l₁.length) l₂ := by
  induction l₁ with
  | nil => intro i; simp [extractLoop]
  | cons a l ih =>
    intro i
    cases h : extractItem a i <;>
      simp [extractLoop, h, ih, Nat.add_comm, Nat.add_assoc, Nat.add_left_comm]

/-- On a list of well-formed items the extraction loop returns one
record per item. -/
theorem extractLoop_wf_length (l : List ResultItem) : ∀ i,
    (∀ it ∈ l, it.malformed = false) → (extractLoop i l).length = l.length := by
  induction l with
  | nil => intro i _; rfl
  | cons a l ih =>
    intro i h
    have ha : a.malformed = false := h a (by simp)
    simp only [extractLoop, extractItem, ha, if_false, Bool.false_eq_true]
    simp only [List.length_cons]
    exact congrArg (· + 1) (ih (i + 1) fun it hit => h it (by simp [hit]))

/-- A successful select emits a select event, never a teardown event. -/
theorem selectStep_ok_not_teardown (sel : String) (opts : List String)
    (r : Option String) (ev : Ev) (h : selectStep sel opts r = Except.ok ev) :
    ev ≠ Ev.closeBrowser ∧ ev ≠ Ev.stopPlaywright := by
  rcases r with _ | l
  · simp only [selectStep] at h
    cases h
    exact ⟨by simp, by simp⟩
  · simp only [selectStep] at h
    by_cases hm : l ∈ opts
    · rw [if_pos hm] at h
      cases h
      exact ⟨by simp, by simp⟩
    · rw [if_neg hm] at h
      simp at h

/-- No teardown event occurs before the login check. -/
theorem loginTrace_no_teardown (cfg : Config) :
    Ev.closeBrowser ∉ loginTrace cfg ∧ Ev.stopPlaywright ∉ loginTrace cfg := by
  constructor <;> simp [loginTrace]

/-- No teardown event occurs before the rate-calculator wait. -/
theorem navTrace_no_teardown (cfg : Config) :
    Ev.closeBrowser ∉ navTrace cfg ∧ Ev.stopPlaywright ∉ navTrace cfg := by
  constructor <;> simp [navTrace, loginTrace]

/-- No teardown event occurs before the city wait. -/
theorem zipTrace_no_teardown (cfg : Config) (req : ScrapeRequest) :
    Ev.closeBrowser ∉ zipTrace cfg req ∧ Ev.stopPlaywright ∉ zipTrace cfg req := by
  constructor <;> simp [zipTrace, navTrace, loginTrace]

/-- No teardown event occurs before the street wait. -/
theorem cityTrace_no_teardown (cfg : Config) (req : ScrapeRequest) (evC : Ev)
    (h1 : evC ≠ Ev.closeBrowser) (h2 : evC ≠ Ev.stopPlaywright) :
    Ev.closeBrowser ∉ cityTrace cfg req evC ∧
      Ev.stopPlaywright ∉ cityTrace cfg req evC := by
  constructor <;>
    simp [cityTrace, zipTrace, navTrace, loginTrace, Ne.symm h1, Ne.symm h2]

/-- No teardown event occurs before the grid-operator wait. -/
theorem streetTrace_no_teardown (cfg : Config) (req : ScrapeRequest) (evC evS : Ev)
    (h1 : evC ≠ Ev.closeBrowser) (h2 : evC ≠ Ev.stopPlaywright)
    (h3 : evS ≠ Ev.closeBrowser) (h4 : evS ≠ Ev.stopPlaywright) :
    Ev.closeBrowser ∉ streetTrace cfg req evC evS ∧
      Ev.stopPlaywright ∉ streetTrace cfg req evC evS := by
  constructor <;>
    simp [streetTrace, cityTrace, zipTrace, navTrace, loginTrace,
      Ne.symm h1, Ne.symm h2, Ne.symm h3, Ne.symm h4]

/-- No teardown event occurs before the results wait. -/
theorem submitTrace_no_teardown (cfg : Config) (req : ScrapeRequest) (evC evS : Ev)
    (h1 : evC ≠ Ev.closeBrowser) (h2 : evC ≠ Ev.stopPlaywright)
    (h3 : evS ≠ Ev.closeBrowser) (h4 : evS ≠ Ev.stopPlaywright) :
    Ev.closeBrowser ∉ submitTrace cfg req evC evS ∧
      Ev.stopPlaywright ∉ submitTrace cfg req evC evS := by
  constructor <;>
    simp [submitTrace, streetTrace, cityTrace, zipTrace, navTrace, loginTrace,
      Ne.symm h1, Ne.symm h2, Ne.symm h3, Ne.symm h4]

/-- One drill-down iteration emits at most one click event. -/
theorem drillOne_events (env : PortalEnv) (t : TariffDetail) :
    (drillOne env t).2 = [] ∨ ∃ s, (drillOne env t).2 = [Ev.click s] := by
  by_cases h1 : env.provisionFails (t.tariff_id.getD "") = true
  · left
    simp [drillOne, h1]
  · by_cases h2 : env.provisionBtn (t.tariff_id.getD "") = true
    · right
      exact ⟨provision_selector (t.tariff_id.getD ""), by simp [drillOne, h1, h2]⟩
    · left
      simp [drillOne, h1, h2]

/-- The drill-down loop never emits a teardown event. -/
theorem drillAll_no_teardown (env : PortalEnv) (ts : List TariffDetail) :
    Ev.closeBrowser ∉ (drillAll env ts).2 ∧
      Ev.stopPlaywright ∉ (drillAll env ts).2 := by
  induction ts with
  | nil => constructor <;> simp [drillAll]
  | cons t ts ih =>
    rcases drillOne_events env t with h | ⟨s, h⟩ <;>
      constructor <;> simp [drillAll, h, ih.1, ih.2]

/-- The session body either raises, having emitted no teardown event
yet, or returns the success payload with the browser-close event as
the last action of its trace. -/
theorem sessionBody_teardown (cfg : Config) (env : PortalEnv) (req : ScrapeRequest) :
    (∃ e tr, sessionBody cfg env req = (Except.error e, tr) ∧
      Ev.closeBrowser ∉ tr ∧ Ev.stopPlaywright ∉ tr) ∨
    (∃ resp tr, sessionBody cfg env req = (Except.ok resp, tr ++ [Ev.closeBrowser]) ∧
      Ev.closeBrowser ∉ tr ∧ Ev.stopPlaywright ∉ tr) := by
  cases h1 : env.loginFails with
  | true =>
    exact Or.inl ⟨Exc.loginFailed, loginTrace cfg, by simp [sessionBody, h1],
      (loginTrace_no_teardown cfg).1, (loginTrace_no_teardown cfg).2⟩
  | false =>
  cases h2 : env.ratecalcLoads with
  | false =>
    exact Or.inl ⟨Exc.pwTimeout "Page.wait_for_selector" 10000, navTrace cfg,
      by simp [sessionBody, h1, h2],
      (navTrace_no_teardown cfg).1, (navTrace_no_teardown cfg).2⟩
  | true =>
  cases h3 : env.cityOptions.isEmpty with
  | true =>
    exact Or.inl ⟨Exc.pwTimeout "Page.wait_for_function" 5000, zipTrace cfg req,
      by simp [sessionBody, h1, h2, h3],
      (zipTrace_no_teardown cfg req).1, (zipTrace_no_teardown cfg req).2⟩
  | false =>
  cases hsel : selectStep cityField (env.cityPlaceholder :: env.cityOptions) req.ort with
  | error e =>
    exact Or.inl ⟨e, zipTrace cfg req, by simp [sessionBody, h1, h2, h3, hsel],
      (zipTrace_no_teardown cfg req).1, (zipTrace_no_teardown cfg req).2⟩
  | ok evCity =>
  obtain ⟨hc1, hc2⟩ := selectStep_ok_not_teardown _ _ _ _ hsel
  cases h4 : env.streetOptions.isEmpty with
  | true =>
    exact Or.inl ⟨Exc.pwTimeout "Page.wait_for_function" 5000, cityTrace cfg req evCity,
      by simp [sessionBody, h1, h2, h3, hsel, h4],
      (cityTrace_no_teardown cfg req evCity hc1 hc2).1,
      (cityTrace_no_teardown cfg req evCity hc1 hc2).2⟩
  | false =>
  cases hsel2 : selectStep streetField (env.streetPlaceholder :: env.streetOptions) req.strasse with
  | error e =>
    exact Or.inl ⟨e, cityTrace cfg req evCity,
      by simp [sessionBody, h1, h2, h3, hsel, h4, hsel2],
      (cityTrace_no_teardown cfg req evCity hc1 hc2).1,
      (cityTrace_no_teardown cfg req evCity hc1 hc2).2⟩
  | ok evStreet =>
  obtain ⟨hs1, hs2⟩ := selectStep_ok_not_teardown _ _ _ _ hsel2
  cases h5 : env.netzLoads with
  | false =>
    exact Or.inl ⟨Exc.pwTimeout "Page.wait_for_function" 5000,
      streetTrace cfg req evCity evStreet,
      by simp [sessionBody, h1, h2, h3, hsel, h4, hsel2, h5],
      (streetTrace_no_teardown cfg req evCity evStreet hc1 hc2 hs1 hs2).1,
      (streetTrace_no_teardown cfg req evCity evStreet hc1 hc2 hs1 hs2).2⟩
  | true =>
  cases hres : env.resultItems with
  | none =>
    refine Or.inl ⟨Exc.noResults (Exc.pwTimeout "Page.wait_for_selector" 15000),
      submitTrace cfg req evCity evStreet ++ [Ev.screenshot "/tmp/error_screenshot.png"],
      by simp [sessionBody, h1, h2, h3, hsel, h4, hsel2, h5, hres], ?_, ?_⟩
    · simp [List.mem_append,
        (submitTrace_no_teardown cfg req evCity evStreet hc1 hc2 hs1 hs2).1]
    · simp [List.mem_append,
        (submitTrace_no_teardown cfg req evCity evStreet hc1 hc2 hs1 hs2).2]
  | some items =>
    by_cases hip : (req.include_provisions && (tariffs_data items).length > 0) = true
    · refine Or.inr ⟨⟨true, (drillAll env (tariffs_data items)).1,
        (drillAll env (tariffs_data items)).1.length, none⟩,
        submitTrace cfg req evCity evStreet ++ (drillAll env (tariffs_data items)).2,
        ?_, ?_, ?_⟩
      · simp [sessionBody, h1, h2, h3, hsel, h4, hsel2, h5, hres, hip, List.append_assoc]
      · simp [List.mem_append,
          (submitTrace_no_teardown cfg req evCity evStreet hc1 hc2 hs1 hs2).1,
          (drillAll_no_teardown env (tariffs_data items)).1]
      · simp [List.mem_append,
          (submitTrace_no_teardown cfg req evCity evStreet hc1 hc2 hs1 hs2).2,
          (drillAll_no_teardown env (tariffs_data items)).2]
    · refine Or.inr ⟨⟨true, tariffs_data items, (tariffs_data items).length, none⟩,
        submitTrace cfg req evCity evStreet, ?_, ?_, ?_⟩
      · simp [sessionBody, h1, h2, h3, hsel, h4, hsel2, h5, hres, hip]
      · exact (submitTrace_no_teardown cfg req evCity evStreet hc1 hc2 hs1 hs2).1
      · exact (submitTrace_no_teardown cfg req evCity evStreet hc1 hc2 hs1 hs2).2

/-! Claim theorems. -/

/-- C1: for every request that passes the credential check, whatever
the portal does, the trace of the request ends with exactly one
browser-teardown event followed by the playwright stop, and no
teardown event occurs anywhere earlier: the session opened for the
request is torn down exactly once before the payload is returned, on
every exit path, timeouts, selection failures and extraction failures
included. -/
theorem session_closed_exactly_once (cfg : Config) (env : PortalEnv) (req : ScrapeRequest)
    (hu : truthy cfg.PORTAL_USERNAME = true) (hp : truthy cfg.PORTAL_PASSWORD = true) :
    ∃ tr, (scrape_tariffs cfg env req).2 = tr ++ [Ev.closeBrowser, Ev.stopPlaywright] ∧
      Ev.closeBrowser ∉ tr ∧ Ev.stopPlaywright ∉ tr := by
  rcases sessionBody_teardown cfg env req with
    ⟨e, tr, heq, hn1, hn2⟩ | ⟨resp, tr, heq, hn1, hn2⟩
  · refine ⟨tr, ?_, hn1, hn2⟩
    simp [scrape_tariffs, hu, hp, heq]
  · refine ⟨tr, ?_, hn1, hn2⟩
    simp [scrape_tariffs, hu, hp, heq]

/-- Witness for C1 at a concrete input. -/
theorem session_closed_exactly_once_witness :
    ∃ tr, (scrape_tariffs goodCfg happyEnv sampleReq).2 =
        tr ++ [Ev.closeBrowser, Ev.stopPlaywright] ∧
      Ev.closeBrowser ∉ tr ∧ Ev.stopPlaywright ∉ tr :=
  session_closed_exactly_once goodCfg happyEnv sampleReq rfl rfl

/-- C3 counterexample: when the city select stalls, the payload error
is the generic playwright wait-timeout message, which does not name
the city field — indeed the payload is literally identical to the one
produced when the STREET select stalls instead, so the failure cannot
identify the stalled field, and there is no CascadeStalled condition. -/
theorem cascade_stall_counterexample :
    (scrape_tariffs goodCfg cityStallEnv sampleReq).1 =
      Except.ok ⟨false, [], 0, some "Page.wait_for_function: Timeout 5000ms exceeded."⟩ ∧
    (scrape_tariffs goodCfg cityStallEnv sampleReq).1 =
      (scrape_tariffs goodCfg cityOnlyEnv sampleReq).1 := by
  constructor <;> decide

/-- C3 amended: when the city field never grows past its placeholder
within the bounded wait, the request fails with success=false, an
empty tariff list (no partial-cascade result) and the generic
playwright wait-timeout message as its error. -/
theorem city_stall_generic_timeout (cfg : Config) (env : PortalEnv) (req : ScrapeRequest)
    (hu : truthy cfg.PORTAL_USERNAME = true) (hp : truthy cfg.PORTAL_PASSWORD = true)
    (hl : env.loginFails = false) (hr : env.ratecalcLoads = true)
    (hc : env.cityOptions = []) :
    (scrape_tariffs cfg env req).1 =
      Except.ok ⟨false, [], 0, some (excMsg (Exc.pwTimeout "Page.wait_for_function" 5000))⟩ := by
  simp [scrape_tariffs, sessionBody, hu, hp, hl, hr, hc]

/-- Witness for the amended C3 at a concrete input. -/
theorem city_stall_generic_timeout_witness :
    (scrape_tariffs goodCfg cityStallEnv sampleReq).1 =
      Except.ok ⟨false, [], 0, some (excMsg (Exc.pwTimeout "Page.wait_for_function" 5000))⟩ :=
  city_stall_generic_timeout goodCfg cityStallEnv sampleReq rfl rfl rfl rfl rfl

/-- C4 counterexample: a supplied city label matching no rendered
option does NOT produce a distinct SelectionMismatch condition — the
failure surfaced to the caller is itself a playwright timeout
(select_option keeps waiting for a matching option until its 30s
default timeout), rendered through the same generic handler as every
other timeout. -/
theorem selection_mismatch_counterexample :
    (scrape_tariffs goodCfg cityOnlyEnv badCityReq).1 =
      Except.ok ⟨false, [], 0, some "Page.select_option: Timeout 30000ms exceeded."⟩ ∧
    "Page.select_option: Timeout 30000ms exceeded." =
      excMsg (Exc.pwTimeout "Page.select_option" 30000) := by
  constructor <;> decide

/-- C4 amended: when requested_city matches no rendered option the
select step times out; the request fails with success=false, empty
tariffs and the generic select-timeout message (no distinct
SelectionMismatch category), and no option is ever selected for the
city field in its place. -/
theorem unmatched_city_generic_timeout (cfg : Config) (env : PortalEnv)
    (req : ScrapeRequest) (l : String)
    (hu : truthy cfg.PORTAL_USERNAME = true) (hp : truthy cfg.PORTAL_PASSWORD = true)
    (hl : env.loginFails = false) (hr : env.ratecalcLoads = true)
    (hc : env.cityOptions.isEmpty = false) (hol : req.ort = some l)
    (hnm : l ∉ env.cityPlaceholder :: env.cityOptions) :
    (scrape_tariffs cfg env req).1 =
      Except.ok ⟨false, [], 0, some (excMsg (Exc.pwTimeout "Page.select_option" 30000))⟩ ∧
    (∀ lab, Ev.selectByLabel cityField lab ∉ (scrape_tariffs cfg env req).2) ∧
    (∀ i, Ev.selectByIndex cityField i ∉ (scrape_tariffs cfg env req).2) := by
  have hbody : sessionBody cfg env req =
      (Except.error (Exc.pwTimeout "Page.select_option" 30000), zipTrace cfg req) := by
    simp [sessionBody, hl, hr, hc, hol, selectStep, hnm]
  refine ⟨?_, ?_, ?_⟩
  · simp [scrape_tariffs, hu, hp, hbody]
  · intro lab
    simp [scrape_tariffs, hu, hp, hbody, zipTrace, navTrace, loginTrace]
  · intro i
    simp [scrape_tariffs, hu, hp, hbody, zipTrace, navTrace, loginTrace]

/-- Witness for the amended C4 at a concrete input. -/
theorem unmatched_city_generic_timeout_witness :
    (scrape_tariffs goodCfg cityOnlyEnv badCityReq).1 =
      Except.ok ⟨false, [], 0, some (excMsg (Exc.pwTimeout "Page.select_option" 30000))⟩ ∧
    (∀ lab, Ev.selectByLabel cityField lab ∉ (scrape_tariffs goodCfg cityOnlyEnv badCityReq).2) ∧
    (∀ i, Ev.selectByIndex cityField i ∉ (scrape_tariffs goodCfg cityOnlyEnv badCityReq).2) :=
  unmatched_city_generic_timeout goodCfg cityOnlyEnv badCityReq "Atlantis"
    rfl rfl rfl rfl rfl rfl (by decide)

/-- C8: when the portal renders zero result items within the bounded
results wait, the payload is success=false with an empty tariff list
and an error message mentioning the no-results timeout, the trace
records a diagnostic screenshot persisted at the fixed path
/tmp/error_screenshot.png (a side effect, not part of the payload),
and the failure is not a silent empty-success result. -/
theorem no_results_structured_failure (cfg : Config) (env : PortalEnv) (req : ScrapeRequest)
    (hu : truthy cfg.PORTAL_USERNAME = true) (hp : truthy cfg.PORTAL_PASSWORD = true)
    (hl : env.loginFails = false) (hr : env.ratecalcLoads = true)
    (hc : env.cityOptions.isEmpty = false)
    (hoc : ∀ l, req.ort = some l → l ∈ env.cityPlaceholder :: env.cityOptions)
    (hs : env.streetOptions.isEmpty = false)
    (hos : ∀ l, req.strasse = some l → l ∈ env.streetPlaceholder :: env.streetOptions)
    (hn : env.netzLoads = true) (hres : env.resultItems = none) :
    (scrape_tariffs cfg env req).1 =
      Except.ok ⟨false, [], 0,
        some (excMsg (Exc.noResults (Exc.pwTimeout "Page.wait_for_selector" 15000)))⟩ ∧
    excMsg (Exc.noResults (Exc.pwTimeout "Page.wait_for_selector" 15000)) =
      "No tariff results found. Error: Page.wait_for_selector: Timeout 15000ms exceeded." ∧
    Ev.screenshot "/tmp/error_screenshot.png" ∈ (scrape_tariffs cfg env req).2 := by
  have hcity : ∃ ev, selectStep cityField (env.cityPlaceholder :: env.cityOptions) req.ort =
      Except.ok ev := by
    cases ho : req.ort with
    | none => exact ⟨Ev.selectByIndex cityField 1, rfl⟩
    | some l => exact ⟨Ev.selectByLabel cityField l, by simp [selectStep, hoc l ho]⟩
  have hstreet : ∃ ev, selectStep streetField (env.streetPlaceholder :: env.streetOptions) req.strasse =
      Except.ok ev := by
    cases ho : req.strasse with
    | none => exact ⟨Ev.selectByIndex streetField 1, rfl⟩
    | some l => exact ⟨Ev.selectByLabel streetField l, by simp [selectStep, hos l ho]⟩
  obtain ⟨evC, hselc⟩ := hcity
  obtain ⟨evS, hsels⟩ := hstreet
  have hbody : sessionBody cfg env req =
      (Except.error (Exc.noResults (Exc.pwTimeout "Page.wait_for_selector" 15000)),
        submitTrace cfg req evC evS ++ [Ev.screenshot "/tmp/error_screenshot.png"]) := by
    simp [sessionBody, hl, hr, hc, hselc, hs, hsels, hn, hres]
  refine ⟨?_, by decide, ?_⟩
  · simp [scrape_tariffs, hu, hp, hbody]
  · simp [scrape_tariffs, hu, hp, hbody]

/-- Witness for C8 at a concrete input: the request supplies both a
city label and a street label, each matching a rendered option, and
the portal renders zero result items. -/
theorem no_results_structured_failure_witness :
    (scrape_tariffs goodCfg noResultsEnv labeledReq).1 =
      Except.ok ⟨false, [], 0,
        some (excMsg (Exc.noResults (Exc.pwTimeout "Page.wait_for_selector" 15000)))⟩ ∧
    excMsg (Exc.noResults (Exc.pwTimeout "Page.wait_for_selector" 15000)) =
      "No tariff results found. Error: Page.wait_for_selector: Timeout 15000ms exceeded." ∧
    Ev.screenshot "/tmp/error_screenshot.png" ∈
      (scrape_tariffs goodCfg noResultsEnv labeledReq).2 :=
  no_results_structured_failure goodCfg noResultsEnv labeledReq
    rfl rfl rfl rfl rfl
    (by intro l h; injection h with h2; subst h2; decide) rfl
    (by intro l h; injection h with h2; subst h2; decide) rfl rfl

/-- C9 (intent, with the line-236 SyntaxError repaired as in
`provision_selector`): a per-tariff failure during commission lookup
degrades gracefully — with the drill-down of tariff tid-A throwing and
the drill-down of tariff tid-B succeeding, the request still returns
success=true with both records, tid-A keeping all its extracted fields
with provision absent, and tid-B carrying its provision value. -/
theorem drilldown_graceful_intent :
    (scrape_tariffs goodCfg drillFailEnv sampleReq).1 =
      Except.ok ⟨true,
        [⟨"Anbieter A", "Tarif A", none, none, none, none, none, none, some "tid-A"⟩,
          ⟨"Anbieter B", "Tarif B", none, none, none, none, some "25,00 Euro", none, some "tid-B"⟩],
        2, none⟩ := by
  decide

/-- C2: a request arriving while PORTAL_USERNAME or PORTAL_PASSWORD
is unset (or empty, both are falsy in Python) is rejected with
HTTPException 500 — a payload shape distinct from the
`success=false` ScrapeResponse used for runtime scraping failures —
and the trace of browser/network actions is empty: no session is
opened and nothing else happens. -/
theorem scrape_missing_credentials (cfg : Config) (env : PortalEnv) (req : ScrapeRequest)
    (h : truthy cfg.PORTAL_USERNAME = false ∨ truthy cfg.PORTAL_PASSWORD = false) :
    scrape_tariffs cfg env req =
      (Except.error
        ⟨500, "Portal credentials not configured. Set PORTAL_USERNAME and PORTAL_PASSWORD env vars."⟩,
        ([] : List Ev)) := by
  unfold scrape_tariffs
  rcases h with h | h <;> simp [h]

/-- Witness for C2 at a concrete input: username missing, password
present. -/
theorem scrape_missing_credentials_witness :
    scrape_tariffs ⟨none, some "geheim"⟩ happyEnv sampleReq =
      (Except.error
        ⟨500, "Portal credentials not configured. Set PORTAL_USERNAME and PORTAL_PASSWORD env vars."⟩,
        ([] : List Ev)) :=
  scrape_missing_credentials _ _ _ (Or.inl rfl)

/-- C5 counterexample: price-like text is NOT parsed to a number.
The extracted record stores the source text verbatim: for the
canonical locale inputs the stored monthly price is the string
29,90€ and the stored yearly price the string 1.234,56 €, currency
symbol and comma still included, not 29.90 and not 1234.56. -/
theorem price_not_parsed_counterexample :
    (tariffs_data [priceItem]).map (fun t => (t.preis_monat, t.preis_jahr)) =
      [(some "29,90€", some "1.234,56 €")] ∧
    '€' ∈ "29,90€".data ∧
    '€' ∈ "1.234,56 €".data ∧
    ("29,90€" = "29.90" → False) ∧
    ("1.234,56 €" = "1234.56" → False) := by
  refine ⟨?_, ?_, ?_, ?_, ?_⟩ <;> decide

/-- C5 amended: extraction carries price-like text over verbatim,
whitespace-trimmed, as an optional string — no currency-symbol
stripping, no comma conversion, no numeric parsing happens anywhere —
and an absent source element (or empty text, falsy in JS) yields an
absent value rather than raising. -/
theorem price_text_kept_verbatim (s : String) :
    (extractItem { priceMonthPrimary := some s } 0).map (fun t => t.preis_monat) =
      some (if jsTrim s = "" then none else some (jsTrim s)) ∧
    (extractItem { } 0).map (fun t => t.preis_monat) = some none := by
  constructor
  · simp only [extractItem, fieldChain, textOf, jsOr]
    split <;> simp_all
  · rfl

/-- C6: one malformed item among well-formed items is contained by the
per-item try/catch: the batch result is exactly the records of the
well-formed items (the ones after the malformed item keeping their
original rendered indices), so its length is N, and no request-level
error arises. -/
theorem malformed_item_skipped (pre post : List ResultItem) (m : ResultItem)
    (hm : m.malformed = true)
    (hpre : ∀ it ∈ pre, it.malformed = false)
    (hpost : ∀ it ∈ post, it.malformed = false) :
    (tariffs_data (pre ++ m :: post)).length = pre.length + post.length ∧
    tariffs_data (pre ++ m :: post) =
      tariffs_data pre ++ extractLoop (pre.length + 1) post := by
  have hsplit : tariffs_data (pre ++ m :: post) =
      tariffs_data pre ++ extractLoop (pre.length + 1) post := by
    unfold tariffs_data
    have h1 : pre ++ m :: post = (pre ++ [m]) ++ post := by simp
    rw [h1, extractLoop_append, extractLoop_append]
    simp [extractLoop, extractItem, hm]
  refine ⟨?_, hsplit⟩
  rw [hsplit]
  have e1 := extractLoop_wf_length pre 0 hpre
  have e2 := extractLoop_wf_length post (pre.length + 1) hpost
  simp [tariffs_data, e1, e2]

/-- Witness for C6 at a concrete input: a malformed item between two
well-formed ones yields exactly the two well-formed records. -/
theorem malformed_item_skipped_witness :
    (tariffs_data ([wfItem] ++ badItem :: [priceItem])).length =
      [wfItem].length + [priceItem].length ∧
    tariffs_data ([wfItem] ++ badItem :: [priceItem]) =
      tariffs_data [wfItem] ++ extractLoop ([wfItem].length + 1) [priceItem] :=
  malformed_item_skipped [wfItem] [priceItem] badItem rfl (by decide) (by decide)

/-- C7 counterexample: there is no maximum count bound in the
extraction loop.  A batch of 21 well-formed rendered items yields 21
records, exceeding the claimed bound of 20. -/
theorem extraction_exceeds_twenty :
    (tariffs_data (List.replicate 21 wfItem)).length = 21 ∧
    ¬ (tariffs_data (List.replicate 21 wfItem)).length ≤ 20 := by
  refine ⟨?_, ?_⟩ <;> decide

/-- C7 amended: extraction iterates every rendered result item with
no maximum-count bound; the returned sequence has exactly one record
per non-malformed rendered item, however many items render. -/
theorem extraction_no_count_bound (items : List ResultItem) :
    (tariffs_data items).length =
      (items.filter (fun it => !it.malformed)).length :=
  extractLoop_length items 0

/-- C10: the returned payload and the whole action trace are
unaffected by the request fields personen, vertragsart, userId and
brokerId — the pipeline never reads them (household size and contract
type are never typed into the portal form). -/
theorem unread_fields_no_influence (cfg : Config) (env : PortalEnv)
    (r₁ r₂ : ScrapeRequest)
    (hplz : r₁.plz = r₂.plz) (hver : r₁.verbrauch = r₂.verbrauch)
    (hort : r₁.ort = r₂.ort) (hstr : r₁.strasse = r₂.strasse)
    (hhn : r₁.hausnummer = r₂.hausnummer)
    (hip : r₁.include_provisions = r₂.include_provisions) :
    scrape_tariffs cfg env r₁ = scrape_tariffs cfg env r₂ := by
  rcases r₁ with ⟨p₁, v₁, pe₁, va₁, u₁, b₁, o₁, s₁, h₁, i₁⟩
  rcases r₂ with ⟨p₂, v₂, pe₂, va₂, u₂, b₂, o₂, s₂, h₂, i₂⟩
  simp only at hplz hver hort hstr hhn hip
  subst hplz; subst hver; subst hort; subst hstr; subst hhn; subst hip
  rfl

/-- Witness for C10 at concrete inputs: two requests differing in
personen, vertragsart, userId and brokerId produce identical results. -/
theorem unread_fields_no_influence_witness :
    scrape_tariffs goodCfg happyEnv
      { plz := "10115", verbrauch := 3500, personen := 2,
        vertragsart := "Bestandskunde", userId := "user-A", brokerId := some "broker-7" } =
    scrape_tariffs goodCfg happyEnv
      { plz := "10115", verbrauch := 3500, personen := 5,
        vertragsart := "Neukunde", userId := "user-B", brokerId := none } :=
  unread_fields_no_influence _ _ _ _ rfl rfl rfl rfl rfl rfl

end EnergyScraper
